import Mathlib

/-!
Shallow embedding of the kugutsu repository (hello_cli + multi_engineer).

Subprocess calls are modelled by their argument vectors (List String) together
with the exit codes / stdout text the environment would return, passed in as
explicit parameters.  Each git helper returns the trace of commands it issues
paired with its boolean result.  Python string operations are modelled by the
corresponding Lean String / List Char operations.
-/

/-- Status enum of a development task (multi_engineer/domain/entities.py, TaskStatus). -/
inductive TaskStatus where
  | pending
  | in_progress
  | completed
  | failed
  | merged
deriving DecidableEq, Repr

/-- Development task entity (multi_engineer/domain/entities.py, DevelopmentTask). -/
structure DevelopmentTask where
  id : String
  prompt : String
  branch_name : String
  worktree_path : Option String
  status : TaskStatus
  base_branch : String
deriving DecidableEq, Repr

/-- Embeds DevelopmentTask.create.  The random token str(uuid.uuid4())[:8] is passed
in as the parameter generatedId; the rest follows entities.py lines 28-37. -/
def DevelopmentTask.create (generatedId : String) (prompt : String) (base_branch : String) :
    DevelopmentTask :=
  { id := generatedId
    prompt := prompt
    branch_name := "feature/task-" ++ generatedId
    worktree_path := none
    status := TaskStatus.pending
    base_branch := base_branch }

/-- Embeds the id reassignment performed by the workflow right after creation
(services.py line 102: task.id = session_id). -/
def workflowAssignSessionId (t : DevelopmentTask) (session_id : String) : DevelopmentTask :=
  { t with id := session_id }

/-- Embeds the status mutations the workflow performs (services.py lines 116, 171, 203, 218, 228). -/
def taskSetStatus (t : DevelopmentTask) (s : TaskStatus) : DevelopmentTask :=
  { t with status := s }

/-- Embeds the worktree_path assignment (services.py line 115). -/
def taskSetWorktreePath (t : DevelopmentTask) (p : String) : DevelopmentTask :=
  { t with worktree_path := some p }

/-- Execution result entity (multi_engineer/domain/entities.py, ExecutionResult).
The changed_files field is kept as Option to reflect that the dataclass field
accepts None before post-init runs. -/
structure ExecutionResult where
  task_id : String
  success : Bool
  message : String
  changed_files : Option (List String)
  error : Option String
deriving DecidableEq, Repr

/-- Embeds constructing an ExecutionResult, including dataclass post-init
(entities.py lines 49-51): a None changed_files is replaced by the empty list. -/
def mkExecutionResult (task_id : String) (success : Bool) (message : String)
    (changed_files : Option (List String)) (error : Option String) : ExecutionResult :=
  { task_id := task_id
    success := success
    message := message
    changed_files := some (changed_files.getD [])
    error := error }

/-- Python str.strip, modelled with String.trim. -/
def pyStrip (s : String) : String := s.trim

/-- Derived short id used by GitRepository for worktree paths
(git_repository.py lines 23, 58). -/
def shortTaskId (task_id : String) : String :=
  if task_id.length > 8 then task_id.take 8 else task_id

/-- Worktree path derived by GitRepository (git_repository.py line 24). -/
def worktreePath (task_id : String) : String :=
  "worktrees/t-" ++ shortTaskId task_id

/-- Embeds GitRepository.remove_worktree (git_repository.py lines 55-67) as the
list of git commands it issues, given whether the derived path exists. -/
def remove_worktree (pathExists : Bool) (task_id : String) : List (List String) :=
  if pathExists then
    [["git", "worktree", "remove", worktreePath task_id, "--force"]]
  else
    []

/-- Embeds GitRepository.create_worktree (git_repository.py lines 20-53) as the
list of git commands it issues, given whether the derived path pre-exists. -/
def create_worktree (pathExists : Bool) (task_id branch_name base_branch : String) :
    List (List String) :=
  remove_worktree pathExists task_id ++
    [["git", "worktree", "add", "-b", branch_name, worktreePath task_id, base_branch]]

/-- Worktree path derived by hello_cli GitWorktreeManager (hello_cli/main.py line 60). -/
def gwmWorktreePath (task_id : String) : String :=
  "worktrees/task-" ++ task_id

/-- Embeds GitWorktreeManager.remove_worktree (hello_cli/main.py lines 91-101). -/
def gwmRemoveWorktree (pathExists : Bool) (task_id : String) : List (List String) :=
  if pathExists then
    [["git", "worktree", "remove", gwmWorktreePath task_id, "--force"]]
  else
    []

/-- Embeds GitWorktreeManager.create_worktree (hello_cli/main.py lines 53-89). -/
def gwmCreateWorktree (pathExists : Bool) (task_id base_branch : String) : List (List String) :=
  gwmRemoveWorktree pathExists task_id ++
    [["git", "worktree", "add", "-b", "feature/task-" ++ task_id, gwmWorktreePath task_id,
      base_branch]]

/-- Embeds GitRepository.commit_changes (git_repository.py lines 69-82): the git
commands issued and the boolean result, given the exit codes of add and commit. -/
def commit_changes (message : String) (addRc commitRc : Int) : List (List String) × Bool :=
  if addRc ≠ 0 then
    ([["git", "add", "-A"]], false)
  else if commitRc ≠ 0 then
    ([["git", "add", "-A"], ["git", "commit", "-m", message]], false)
  else
    ([["git", "add", "-A"], ["git", "commit", "-m", message]], true)

/-- Merge commit message used by both merge implementations
(git_repository.py line 95, hello_cli/main.py line 141). -/
def mergeMessage (branch_name : String) : String :=
  "Merge " ++ branch_name ++ ": AI-generated changes"

/-- Embeds GitRepository.merge_branch (git_repository.py lines 84-113): the git
commands issued and the boolean result, given the exit codes of checkout and merge.
The checkout target is the literal "main"; the branch delete runs unchecked. -/
def merge_branch (branch_name : String) (checkoutRc mergeRc : Int) :
    List (List String) × Bool :=
  if checkoutRc ≠ 0 then
    ([["git", "checkout", "main"]], false)
  else if mergeRc ≠ 0 then
    ([["git", "checkout", "main"],
      ["git", "merge", branch_name, "--no-ff", "-m", mergeMessage branch_name]], false)
  else
    ([["git", "checkout", "main"],
      ["git", "merge", branch_name, "--no-ff", "-m", mergeMessage branch_name],
      ["git", "branch", "-d", branch_name]], true)

/-- Diff commands issued at the start of GitWorktreeManager.merge_and_cleanup
(hello_cli/main.py lines 116-129): always a stat diff against main, plus the
detailed diff when the stat output is non-empty and the user confirms. -/
def gwmDiffCmds (branch_name diffStdout : String) (confirmDetail : Bool) :
    List (List String) :=
  [["git", "diff", "main..." ++ branch_name, "--stat"]] ++
    (if diffStdout ≠ "" ∧ confirmDetail then [["git", "diff", "main..." ++ branch_name]] else [])

/-- Embeds GitWorktreeManager.merge_and_cleanup (hello_cli/main.py lines 103-162):
the git commands issued and the boolean result, given the stat-diff stdout, the
detail confirmation, whether the worktree path exists, and the exit codes of the
checkout and merge subprocesses.  The checkout target is the literal "main". -/
def merge_and_cleanup (task_id branch_name diffStdout : String)
    (confirmDetail worktreeExists : Bool) (checkoutRc mergeRc : Int) :
    List (List String) × Bool :=
  if checkoutRc ≠ 0 then
    (gwmDiffCmds branch_name diffStdout confirmDetail ++ [["git", "checkout", "main"]], false)
  else if mergeRc ≠ 0 then
    (gwmDiffCmds branch_name diffStdout confirmDetail ++
      [["git", "checkout", "main"],
       ["git", "merge", branch_name, "--no-ff", "-m", mergeMessage branch_name]], false)
  else
    (gwmDiffCmds branch_name diffStdout confirmDetail ++
      [["git", "checkout", "main"],
       ["git", "merge", branch_name, "--no-ff", "-m", mergeMessage branch_name]] ++
      gwmRemoveWorktree worktreeExists task_id ++
      [["git", "branch", "-d", branch_name]], true)

/-- Possible outcomes of the single external CLI invocation performed by the
isolated worker process (claude_repository.py lines 55-86). -/
inductive CLIOutcome where
  | exited (returncode : Int) (stdout : String) (stderr : String)
  | timedOut
  | notFound
  | raised (message : String)
deriving DecidableEq, Repr

/-- Embeds run_claude_in_separate_process (claude_repository.py lines 23-86) as
the sequence of (status, text) tuples the worker puts on the result queue. -/
def run_claude_in_separate_process (outcome : CLIOutcome) : List (String × String) :=
  match outcome with
  | CLIOutcome.exited rc stdout stderr =>
      if rc = 0 then
        if pyStrip stdout ≠ "" then
          [("success", pyStrip stdout)]
        else
          [("success", "Claude Code CLIが正常に実行されました")]
      else
        if pyStrip stderr ≠ "" then
          [("error", pyStrip stderr)]
        else
          [("error", "Claude Code CLI実行エラー (終了コード: " ++ toString rc ++ ")")]
  | CLIOutcome.timedOut =>
      [("error", "Claude Code CLI実行がタイムアウトしました")]
  | CLIOutcome.notFound =>
      [("error", "Claude Code CLIが見つかりません。インストールを確認してください")]
  | CLIOutcome.raised msg =>
      [("error", msg)]

/-- Result of the single blocking queue read performed by ClaudeRepository.execute_task
(claude_repository.py line 213): either the tuple read, or queue.Empty after the
60-second timeout. -/
inductive QueueRead where
  | got (status : String) (text : String)
  | empty
deriving DecidableEq, Repr

/-- Embeds the yield sequence of ClaudeRepository.execute_task after the queue read
(claude_repository.py lines 211-254): final_result is yielded (or a completion
message when empty), and when no success message was received an additional
no-response message is yielded. -/
def execute_task_yields (read : QueueRead) : List String :=
  match read with
  | QueueRead.got status result =>
      let finalResult := if status = "success" then result else "SDK実行エラー: " ++ result
      let messageReceived := status = "success"
      (if finalResult ≠ "" then [finalResult] else ["タスクが完了しました"]) ++
        (if messageReceived then [] else ["Claude Code SDKから応答がありませんでした"])
  | QueueRead.empty =>
      ["Claude SDK実行がタイムアウトしました", "Claude Code SDKから応答がありませんでした"]

/-- Embeds the prompt-length guard of ClaudeRepository.execute_task
(claude_repository.py lines 167-169), at the character level. -/
def truncatePrompt (prompt : List Char) : List Char :=
  if prompt.length > 2000 then prompt.take 2000 ++ "...".toList else prompt

/-- Embeds the commit message construction of the workflow
(services.py line 200): derived from the user prompt, truncated past 50 chars. -/
def workflowCommitMsg (user_prompt : String) : String :=
  if user_prompt.length > 50 then "feat: " ++ user_prompt.take 50 ++ "..."
  else "feat: " ++ user_prompt

/-- Embeds the commit phase of DevelopmentTaskService.execute_task_workflow after a
successful engineer step (services.py lines 190-235), given the stat-diff stdout
and whether commit_changes succeeded.  Returns (commit attempted, result, status). -/
def workflowPostEngineer (taskId diffStdout : String) (commitOk : Bool) :
    Bool × ExecutionResult × TaskStatus :=
  if diffStdout ≠ "" then
    if commitOk then
      (true,
       mkExecutionResult taskId true "ワークフローが正常に完了しました"
         (some ((pyStrip diffStdout).splitOn "\n")) none,
       TaskStatus.completed)
    else
      (true, mkExecutionResult taskId false "コミットに失敗しました" none none,
       TaskStatus.failed)
  else
    (false, mkExecutionResult taskId true "変更なしで完了" none none, TaskStatus.completed)

/-- Output events printed by the hello command (hello_cli/main.py lines 222-244). -/
inductive HelloOutput where
  | panel (title : String) (body : String)
  | table (title : String) (rows : List (String × String))
  | line (body : String)
deriving DecidableEq, Repr

/-- Embeds the target computation of hello (hello_cli/main.py line 214):
Python target = name or "World", where an omitted or empty name is falsy. -/
def helloTarget (name : Option String) : String :=
  match name with
  | none => "World"
  | some s => if s = "" then "World" else s

/-- Python str.upper, modelled character-wise over the underlying char list. -/
def pyUpper (s : String) : String := String.mk (s.data.map Char.toUpper)

/-- Embeds the message computation of hello (hello_cli/main.py lines 217-220). -/
def helloMessage (name : Option String) (uppercase : Bool) : String :=
  let message := "Hello " ++ helloTarget name ++ "!"
  if uppercase then pyUpper message else message

/-- Embeds the body of the hello command (hello_cli/main.py lines 172-244) as the
list of printed output events. -/
def hello (name : Option String) (count : Nat) (uppercase : Bool) (style : String) :
    List HelloOutput :=
  let message := helloMessage name uppercase
  if style = "fancy" then
    (List.range count).map (fun i => HelloOutput.panel ("Greeting #" ++ toString (i + 1)) message)
  else if style = "table" then
    [HelloOutput.table "Greetings" ((List.range count).map (fun i => (toString (i + 1), message)))]
  else
    (List.range count).map (fun _ => HelloOutput.line message)

/-- Embeds the CLI-level count validation declared on the hello command
(hello_cli/main.py lines 178-188: typer.Option with min=1, max=100, enforced by
the CLI library before the command body runs). -/
def helloCli (name : Option String) (count : Int) (uppercase : Bool) (style : String) :
    Except String (List HelloOutput) :=
  if count < 1 ∨ 100 < count then
    Except.error "Invalid value for option --count"
  else
    Except.ok (hello name count.toNat uppercase style)

/-- Left cancellation of string append, proved by passing to the underlying char lists. -/
theorem stringAppendLeftCancel {a b c : String} (h : a ++ b = a ++ c) : b = c := by
  have h2 : (a ++ b).data = (a ++ c).data := by rw [h]
  rw [String.data_append, String.data_append] at h2
  exact String.ext (List.append_cancel_left h2)

/-- Helper: the error prefix used by execute_task makes the yielded string non-empty. -/
theorem sdkErrorNonempty (s : String) : "SDK実行エラー: " ++ s ≠ "" := by
  intro h2
  have h3 := congrArg String.length h2
  rw [String.length_append] at h3
  have ha : ("SDK実行エラー: " : String).length = 10 := by decide
  have hb : ("" : String).length = 0 := by decide
  rw [ha, hb] at h3
  omega

/-- Helper: the isolated worker puts exactly one tuple on the queue on every control path. -/
theorem runClaudePutCount (outcome : CLIOutcome) :
    (run_claude_in_separate_process outcome).length = 1 := by
  cases outcome with
  | exited rc stdout stderr =>
      by_cases h1 : rc = 0
      · by_cases h2 : pyStrip stdout = "" <;>
          simp [run_claude_in_separate_process, h1, h2]
      · by_cases h2 : pyStrip stderr = "" <;>
          simp [run_claude_in_separate_process, h1, h2]
  | timedOut => rfl
  | notFound => rfl
  | raised m => rfl

/-- Helper: in the default simple style the hello command prints the message
exactly count times. -/
theorem helloSimpleReplicate (name : Option String) (count : Nat) (uppercase : Bool) :
    hello name count uppercase "simple" =
      List.replicate count (HelloOutput.line (helloMessage name uppercase)) := by
  simp [hello, List.map_const, List.length_range]

/-- Claim C3: worktree creation removes a pre-existing directory at the derived path
first (via the remove operation) and only then runs git worktree add -b branch path
base, so the trailing add command is the same as for a fresh creation, in both
GitRepository.create_worktree and GitWorktreeManager.create_worktree. -/
theorem C3_worktree_recreate (task_id branch_name base_branch : String) :
    create_worktree true task_id branch_name base_branch =
      [["git", "worktree", "remove", worktreePath task_id, "--force"]] ++
        create_worktree false task_id branch_name base_branch ∧
    create_worktree false task_id branch_name base_branch =
      [["git", "worktree", "add", "-b", branch_name, worktreePath task_id, base_branch]] ∧
    (create_worktree true task_id branch_name base_branch).getLast? =
      (create_worktree false task_id branch_name base_branch).getLast? ∧
    gwmCreateWorktree true task_id base_branch =
      [["git", "worktree", "remove", gwmWorktreePath task_id, "--force"]] ++
        gwmCreateWorktree false task_id base_branch ∧
    gwmCreateWorktree false task_id base_branch =
      [["git", "worktree", "add", "-b", "feature/task-" ++ task_id, gwmWorktreePath task_id,
        base_branch]] ∧
    (gwmCreateWorktree true task_id base_branch).getLast? =
      (gwmCreateWorktree false task_id base_branch).getLast? :=
  ⟨rfl, rfl, rfl, rfl, rfl, rfl⟩

/-- Claim C4: after a successful engineer step the workflow attempts git add/commit
exactly when the stat-diff output is non-empty; an empty diff yields a successful
no-change result without any commit attempt, and a non-empty diff with a successful
commit yields a successful result carrying the changed-file list derived from the
diff output. -/
theorem C4_commit_iff_diff (taskId diffStdout : String) (commitOk : Bool) :
    ((workflowPostEngineer taskId diffStdout commitOk).1 = true ↔ diffStdout ≠ "") ∧
    (diffStdout = "" →
      workflowPostEngineer taskId diffStdout commitOk =
        (false, mkExecutionResult taskId true "変更なしで完了" none none,
         TaskStatus.completed)) ∧
    (diffStdout ≠ "" → commitOk = true →
      workflowPostEngineer taskId diffStdout commitOk =
        (true,
         mkExecutionResult taskId true "ワークフローが正常に完了しました"
           (some ((pyStrip diffStdout).splitOn "\n")) none,
         TaskStatus.completed) ∧
      (workflowPostEngineer taskId diffStdout commitOk).2.1.changed_files =
        some ((pyStrip diffStdout).splitOn "\n") ∧
      (workflowPostEngineer taskId diffStdout commitOk).2.1.success = true) := by
  by_cases h : diffStdout = "" <;> cases commitOk <;>
    simp [workflowPostEngineer, mkExecutionResult, h]

/-- Claim C4 witness: concrete instances of the no-change path and the commit path. -/
theorem C4_witness :
    workflowPostEngineer "t" "" true =
      (false, mkExecutionResult "t" true "変更なしで完了" none none, TaskStatus.completed) ∧
    (workflowPostEngineer "t2" "x\n" true).2.1.changed_files =
      some ((pyStrip "x\n").splitOn "\n") :=
  ⟨(C4_commit_iff_diff "t" "" true).2.1 rfl,
   ((C4_commit_iff_diff "t2" "x\n" true).2.2 (by decide) rfl).2.1⟩

/-- Claim C5 counterexample: the commit message used by the workflow is not fixed:
it is derived from the user prompt, so two different prompts give two different
commit messages. -/
theorem C5_counterexample :
    workflowCommitMsg "add foo" = "feat: add foo" ∧
    workflowCommitMsg "add bar" = "feat: add bar" ∧
    workflowCommitMsg "add foo" ≠ workflowCommitMsg "add bar" := by decide

/-- Claim C5 (amended): commit_changes stages all changes with git add -A and commits
with the message it is given, returning true exactly when both git commands exit
zero; the workflow's commit message is derived from the user prompt, namely
feat: prompt, truncated to 50 characters with ... appended when longer. -/
theorem C5_commit_result (message user_prompt : String) (addRc commitRc : Int) :
    ((commit_changes message addRc commitRc).2 = true ↔ (addRc = 0 ∧ commitRc = 0)) ∧
    ((commit_changes message addRc commitRc).1.head? = some ["git", "add", "-A"]) ∧
    (addRc = 0 →
      (commit_changes message addRc commitRc).1 =
        [["git", "add", "-A"], ["git", "commit", "-m", message]]) ∧
    (user_prompt.length ≤ 50 → workflowCommitMsg user_prompt = "feat: " ++ user_prompt) ∧
    (user_prompt.length > 50 →
      workflowCommitMsg user_prompt = "feat: " ++ user_prompt.take 50 ++ "...") := by
  by_cases h1 : addRc = 0 <;> by_cases h2 : commitRc = 0 <;>
    by_cases h3 : user_prompt.length > 50 <;>
      simp [commit_changes, workflowCommitMsg, h1, h2, h3]

/-- Claim C5 witness: concrete commit success and a concrete workflow commit message. -/
theorem C5_witness :
    (commit_changes (workflowCommitMsg "add foo") 0 0).2 = true ∧
    workflowCommitMsg "add foo" = "feat: " ++ "add foo" :=
  ⟨((C5_commit_result (workflowCommitMsg "add foo") "p" 0 0).1).mpr ⟨rfl, rfl⟩,
   (C5_commit_result "m" "add foo" 0 0).2.2.2.1 (by decide)⟩

/-- Claim C6 counterexample: the branch-name derivation does not survive the workflow:
services.py line 102 reassigns task.id to the session id, after which branch_name
still names the originally generated id and differs from feature/task- plus the
current id. -/
theorem C6_counterexample :
    (workflowAssignSessionId (DevelopmentTask.create "11112222" "p" "main") "33334444").id =
      "33334444" ∧
    (workflowAssignSessionId (DevelopmentTask.create "11112222" "p" "main")
        "33334444").branch_name = "feature/task-11112222" ∧
    (workflowAssignSessionId (DevelopmentTask.create "11112222" "p" "main")
        "33334444").branch_name ≠
      "feature/task-" ++
        (workflowAssignSessionId (DevelopmentTask.create "11112222" "p" "main")
          "33334444").id := by decide

/-- Claim C6 (amended): every task produced by DevelopmentTask.create satisfies
branch_name = feature/task- plus id, the status and worktree-path mutations of the
workflow preserve both fields, and the status always is one of the five enum states;
but the workflow's id reassignment to the session id breaks the derivation whenever
the session id differs from the generated id. -/
theorem C6_branch_invariant (generatedId prompt base_branch session_id p : String)
    (t : DevelopmentTask) (s : TaskStatus)
    (hs : session_id ≠ (DevelopmentTask.create generatedId prompt base_branch).id) :
    (DevelopmentTask.create generatedId prompt base_branch).branch_name =
      "feature/task-" ++ (DevelopmentTask.create generatedId prompt base_branch).id ∧
    (taskSetStatus t s).branch_name = t.branch_name ∧
    (taskSetStatus t s).id = t.id ∧
    (taskSetWorktreePath t p).branch_name = t.branch_name ∧
    (taskSetWorktreePath t p).id = t.id ∧
    (s = TaskStatus.pending ∨ s = TaskStatus.in_progress ∨ s = TaskStatus.completed ∨
      s = TaskStatus.failed ∨ s = TaskStatus.merged) ∧
    (workflowAssignSessionId (DevelopmentTask.create generatedId prompt base_branch)
        session_id).branch_name ≠
      "feature/task-" ++
        (workflowAssignSessionId (DevelopmentTask.create generatedId prompt base_branch)
          session_id).id := by
  refine ⟨rfl, rfl, rfl, rfl, rfl, ?_, ?_⟩
  · cases s
    · exact Or.inl rfl
    · exact Or.inr (Or.inl rfl)
    · exact Or.inr (Or.inr (Or.inl rfl))
    · exact Or.inr (Or.inr (Or.inr (Or.inl rfl)))
    · exact Or.inr (Or.inr (Or.inr (Or.inr rfl)))
  · intro h
    exact hs (stringAppendLeftCancel h).symm

/-- Claim C6 witness: the creation invariant at a concrete task. -/
theorem C6_witness :
    (DevelopmentTask.create "aaaa" "p" "main").branch_name =
      "feature/task-" ++ (DevelopmentTask.create "aaaa" "p" "main").id :=
  (C6_branch_invariant "aaaa" "p" "main" "bbbb" "w" (DevelopmentTask.create "aaaa" "p" "main")
    TaskStatus.pending (by decide)).1

/-- Claim C7: the external-agent prompt has a fixed character budget of 2000: a longer
prompt is cut to exactly the first 2000 characters with the marker ... appended
(total length 2003, unchanged first 2000 characters), and a prompt within the budget
is passed through unchanged. -/
theorem C7_prompt_truncation (prompt : List Char) :
    (prompt.length ≤ 2000 → truncatePrompt prompt = prompt) ∧
    (prompt.length > 2000 →
      truncatePrompt prompt = prompt.take 2000 ++ "...".toList ∧
      (truncatePrompt prompt).length = 2003 ∧
      (truncatePrompt prompt).take 2000 = prompt.take 2000) := by
  constructor
  · intro h
    simp only [truncatePrompt]
    rw [if_neg (by omega)]
  · intro h
    have ht : truncatePrompt prompt = prompt.take 2000 ++ "...".toList := by
      simp only [truncatePrompt]
      rw [if_pos h]
    have hm : ("...".toList).length = 3 := by decide
    have hlen : (prompt.take 2000).length = 2000 := by
      rw [List.length_take]
      omega
    refine ⟨ht, ?_, ?_⟩
    · rw [ht, List.length_append, hlen, hm]
    · rw [ht, List.take_append_of_le_length (by rw [hlen]), List.take_take]
      simp

/-- Claim C7 witness: a 2001-character prompt is truncated to length 2003, a short
prompt passes through unchanged. -/
theorem C7_witness :
    (truncatePrompt (List.replicate 2001 'b')).length = 2003 ∧
    truncatePrompt ['a'] = ['a'] :=
  ⟨((C7_prompt_truncation (List.replicate 2001 'b')).2
      (by rw [List.length_replicate]; omega)).2.1,
   (C7_prompt_truncation ['a']).1 (by decide)⟩

/-- Claim C9: after construction an ExecutionResult's changed_files is never None:
a None argument is replaced by the empty list by the post-init, and a given list is
kept as is. -/
theorem C9_changed_files_not_none (task_id : String) (success : Bool) (message : String)
    (changed_files : Option (List String)) (e : Option String) :
    (mkExecutionResult task_id success message changed_files e).changed_files ≠ none ∧
    (mkExecutionResult task_id success message none e).changed_files = some [] ∧
    (∀ xs, (mkExecutionResult task_id success message (some xs) e).changed_files = some xs) := by
  refine ⟨?_, rfl, fun xs => rfl⟩
  cases changed_files <;> simp [mkExecutionResult]

/-- Claim C9 witness: the None default becomes the empty list at a concrete result. -/
theorem C9_witness :
    (mkExecutionResult "t" true "m" none none).changed_files = some [] :=
  (C9_changed_files_not_none "t" true "m" none none).2.1

/-- Claim C1 counterexample: with a workflow base branch "develop" (other than main),
the merge operation still checks out the literal branch "main": the first command of
merge_branch's trace is git checkout main, not git checkout develop, and in
merge_and_cleanup the command right after the stat diff is also git checkout main. -/
theorem C1_counterexample :
    (DevelopmentTask.create "abc12345" "p" "develop").base_branch = "develop" ∧
    (merge_branch (DevelopmentTask.create "abc12345" "p" "develop").branch_name 0 0).1.head? =
      some ["git", "checkout", "main"] ∧
    (["git", "checkout", "main"] : List String) ≠ ["git", "checkout", "develop"] ∧
    ((merge_and_cleanup "abc12345" "feature/task-abc12345" "" false true 0 0).1.drop 1).head? =
      some ["git", "checkout", "main"] := by decide

/-- Claim C1 (amended): merge_branch and merge_and_cleanup always check out the fixed
branch "main" (regardless of the base branch the workflow was started with), merge
the feature branch with --no-ff and the message Merge branch: AI-generated changes,
attempt the feature-branch deletion exactly when the merge succeeded, and return
false when the checkout or the merge exits non-zero. -/
theorem C1_merge_onto_main (task_id branch_name diffStdout : String)
    (confirmDetail worktreeExists : Bool) (checkoutRc mergeRc : Int) :
    ((merge_branch branch_name checkoutRc mergeRc).1.head? = some ["git", "checkout", "main"]) ∧
    (checkoutRc ≠ 0 → merge_branch branch_name checkoutRc mergeRc =
      ([["git", "checkout", "main"]], false)) ∧
    (checkoutRc = 0 → mergeRc ≠ 0 → merge_branch branch_name checkoutRc mergeRc =
      ([["git", "checkout", "main"],
        ["git", "merge", branch_name, "--no-ff", "-m", mergeMessage branch_name]], false)) ∧
    (checkoutRc = 0 → mergeRc = 0 → merge_branch branch_name checkoutRc mergeRc =
      ([["git", "checkout", "main"],
        ["git", "merge", branch_name, "--no-ff", "-m", mergeMessage branch_name],
        ["git", "branch", "-d", branch_name]], true)) ∧
    (((merge_and_cleanup task_id branch_name diffStdout confirmDetail worktreeExists
        checkoutRc mergeRc).1.drop
          (gwmDiffCmds branch_name diffStdout confirmDetail).length).head? =
      some ["git", "checkout", "main"]) ∧
    (checkoutRc ≠ 0 → (merge_and_cleanup task_id branch_name diffStdout confirmDetail
      worktreeExists checkoutRc mergeRc).2 = false) ∧
    (checkoutRc = 0 → mergeRc ≠ 0 → (merge_and_cleanup task_id branch_name diffStdout
      confirmDetail worktreeExists checkoutRc mergeRc).2 = false) ∧
    (checkoutRc = 0 → mergeRc = 0 → (merge_and_cleanup task_id branch_name diffStdout
      confirmDetail worktreeExists checkoutRc mergeRc).2 = true) := by
  by_cases h1 : checkoutRc = 0 <;> by_cases h2 : mergeRc = 0 <;>
    simp [merge_branch, merge_and_cleanup, h1, h2, List.append_assoc, List.drop_left]

/-- Claim C1 witness: concrete successful and failing merges. -/
theorem C1_witness :
    merge_branch "feature/task-ab" 1 0 = ([["git", "checkout", "main"]], false) ∧
    merge_branch "feature/task-ab" 0 0 =
      ([["git", "checkout", "main"],
        ["git", "merge", "feature/task-ab", "--no-ff", "-m", mergeMessage "feature/task-ab"],
        ["git", "branch", "-d", "feature/task-ab"]], true) :=
  ⟨(C1_merge_onto_main "ab" "feature/task-ab" "" false true 1 0).2.1 (by decide),
   (C1_merge_onto_main "ab" "feature/task-ab" "" false true 0 0).2.2.2.1 rfl rfl⟩

/-- Claim C2 counterexample: execute_task does not yield exactly one final result
string on every control path: on the error path it yields the error string and then
an additional no-response string, two yields in total. -/
theorem C2_counterexample :
    execute_task_yields (QueueRead.got "error" "boom") =
      ["SDK実行エラー: boom", "Claude Code SDKから応答がありませんでした"] ∧
    (execute_task_yields (QueueRead.got "error" "boom")).length ≠ 1 := by decide

/-- Claim C2 (amended): the isolated worker puts exactly one (status, text) tuple on
the result queue on every control path (success when the CLI exits 0, error when it
exits non-zero or raises, a fixed message on the 60-second timeout), and the caller
performs exactly one queue read; on the success path it yields exactly the one
result string, while on the error and queue-timeout paths it yields the error or
fixed timeout string followed by one additional fixed no-response string, of which
the workflow consumes only the first. -/
theorem C2_one_result (outcome : CLIOutcome) (rc : Int) (stdout stderr r e : String)
    (hr : r ≠ "") (hrc : rc ≠ 0) :
    (run_claude_in_separate_process outcome).length = 1 ∧
    (run_claude_in_separate_process (CLIOutcome.exited 0 stdout stderr)).map Prod.fst =
      ["success"] ∧
    (run_claude_in_separate_process (CLIOutcome.exited rc stdout stderr)).map Prod.fst =
      ["error"] ∧
    run_claude_in_separate_process CLIOutcome.timedOut =
      [("error", "Claude Code CLI実行がタイムアウトしました")] ∧
    execute_task_yields (QueueRead.got "success" r) = [r] ∧
    execute_task_yields (QueueRead.got "error" e) =
      ["SDK実行エラー: " ++ e, "Claude Code SDKから応答がありませんでした"] ∧
    execute_task_yields QueueRead.empty =
      ["Claude SDK実行がタイムアウトしました", "Claude Code SDKから応答がありませんでした"] ∧
    (execute_task_yields (QueueRead.got "error" e)).head? =
      some ("SDK実行エラー: " ++ e) := by
  refine ⟨runClaudePutCount outcome, ?_, ?_, rfl, ?_, ?_, rfl, ?_⟩
  · by_cases h : pyStrip stdout = "" <;> simp [run_claude_in_separate_process, h]
  · by_cases h : pyStrip stderr = "" <;> simp [run_claude_in_separate_process, hrc, h]
  · simp [execute_task_yields, hr]
  · simp [execute_task_yields, sdkErrorNonempty e]
  · simp [execute_task_yields, sdkErrorNonempty e]

/-- Claim C2 witness: a concrete successful queue read yields exactly one string. -/
theorem C2_witness :
    execute_task_yields (QueueRead.got "success" "done") = ["done"] :=
  (C2_one_result CLIOutcome.timedOut 2 "" "" "done" "e" (by decide) (by decide)).2.2.2.2.1

/-- Claim C8 counterexample: an explicitly given empty-string name argument does not
print Hello plus the name: Python falsiness makes it fall back to the World default. -/
theorem C8_counterexample :
    hello (some "") 1 false "simple" = [HelloOutput.line "Hello World!"] ∧
    hello (some "") 1 false "simple" ≠ [HelloOutput.line "Hello !"] := by decide

/-- Claim C8 (amended): with no arguments the command prints Hello World! exactly
once, with count 3 exactly three times, with uppercase the uppercased message; in
general in the default simple style the printed message is Hello name! (name
defaulting to World when omitted or empty), uppercased when requested, printed
exactly count times. -/
theorem C8_hello_output (name : String) (optName : Option String) (count : Nat)
    (uppercase : Bool) (hname : name ≠ "") :
    hello none 1 false "simple" = [HelloOutput.line "Hello World!"] ∧
    hello none 3 false "simple" = List.replicate 3 (HelloOutput.line "Hello World!") ∧
    hello none 1 true "simple" = [HelloOutput.line "HELLO WORLD!"] ∧
    helloMessage (some name) false = "Hello " ++ name ++ "!" ∧
    helloMessage (some name) true = pyUpper ("Hello " ++ name ++ "!") ∧
    hello optName count uppercase "simple" =
      List.replicate count (HelloOutput.line (helloMessage optName uppercase)) := by
  refine ⟨by decide, by decide, by decide, ?_, ?_, helloSimpleReplicate optName count uppercase⟩
  · simp [helloMessage, helloTarget, hname]
  · simp [helloMessage, helloTarget, hname]

/-- Claim C8 witness: a concrete named greeting repeated twice. -/
theorem C8_witness :
    hello (some "Bob") 2 false "simple" =
      List.replicate 2 (HelloOutput.line (helloMessage (some "Bob") false)) :=
  (C8_hello_output "Bob" (some "Bob") 2 false (by decide)).2.2.2.2.2

/-- Claim C10: the count option is validated against the declared range 1..100: an
out-of-range count is rejected and no greeting is printed, and every in-range count
prints the greeting exactly count times. -/
theorem C10_count_range (name : Option String) (count : Int) (uppercase : Bool) :
    (count < 1 ∨ 100 < count →
      helloCli name count uppercase "simple" =
        Except.error "Invalid value for option --count") ∧
    (1 ≤ count → count ≤ 100 →
      helloCli name count uppercase "simple" =
        Except.ok (List.replicate count.toNat
          (HelloOutput.line (helloMessage name uppercase))) ∧
      (hello name count.toNat uppercase "simple").length = count.toNat) := by
  constructor
  · intro h
    simp only [helloCli]
    rw [if_pos h]
  · intro h1 h2
    simp only [helloCli]
    rw [if_neg (by omega)]
    constructor
    · rw [helloSimpleReplicate]
    · rw [helloSimpleReplicate, List.length_replicate]

/-- Claim C10 witness: count 0 is rejected, count 3 prints three greetings. -/
theorem C10_witness :
    helloCli none 0 false "simple" = Except.error "Invalid value for option --count" ∧
    helloCli none 3 false "simple" =
      Except.ok (List.replicate (Int.toNat 3)
        (HelloOutput.line (helloMessage none false))) :=
  ⟨(C10_count_range none 0 false).1 (by decide),
   ((C10_count_range none 3 false).2 (by decide) (by decide)).1⟩
